import Mathlib

set_option maxRecDepth 8000
set_option maxHeartbeats 1000000

/-!
Verification development for the client layer of an AI image-editing
application.  The definitions below are a shallow embedding of the
TypeScript service module (`geminiService`): the error classifier
`handleApiError`, the response interpreter inside
`callImageEditingModel`, the asset normalizer `resizeImageForApi`, and
the per-operation request builders with their refusal-fallback retry
logic (`generateFilteredImage`, `generateFusedImage`,
`generateDecadeImage`, ...).  Asynchronous service invocation is
modelled by an environment `svc : Nat -> RawResponse` giving the raw
response to the k-th invocation of the generation model; each operation
returns a `Transcript` recording every request body it sent together
with its final outcome (`Except` models thrown `Error`s by their
message string, exactly as the source matches on message substrings).
-/

/-- Character-list analogue of the test `sub` begins the list, used to
implement the JavaScript `String.prototype.includes` check that the
source code uses on error messages. -/
def leadsWith : List Char → List Char → Bool
  | [], _ => true
  | _ :: _, [] => false
  | a :: as, b :: bs => a == b && leadsWith as bs

/-- Character-list analogue of JavaScript `String.prototype.includes`:
does `sub` occur contiguously in the second list. -/
def occursIn (sub : List Char) : List Char → Bool
  | [] => sub.isEmpty
  | c :: rest => leadsWith sub (c :: rest) || occursIn sub rest

/-- JavaScript `s.includes(sub)` on Lean strings. -/
def strIncludes (s sub : String) : Bool := occursIn sub.data s.data

/-- JSON values as produced by `JSON.parse`.  Numeric tokens are kept
verbatim (the classifier only ever tests truthiness of the nested
message and interpolates it into a template, so the numeric value
itself is never consumed). -/
inductive JsVal where
  | jnull : JsVal
  | jbool (b : Bool) : JsVal
  | jnum (tok : String) : JsVal
  | jstr (s : String) : JsVal
  | jarr (xs : List JsVal) : JsVal
  | jobj (fields : List (String × JsVal)) : JsVal
deriving Repr

/-- JSON whitespace accepted by `JSON.parse`. -/
def isJsonWs (c : Char) : Bool :=
  c == ' ' || c == '\t' || c == '\n' || c == '\r'

/-- Drop leading JSON whitespace. -/
def skipWs : List Char → List Char
  | [] => []
  | c :: rest => if isJsonWs c then skipWs rest else c :: rest

/-- Hexadecimal digit value, for string escapes. -/
def hexVal (c : Char) : Option Nat :=
  if c.isDigit then some (c.toNat - 48)
  else if 'a' ≤ c && c ≤ 'f' then some (c.toNat - 87)
  else if 'A' ≤ c && c ≤ 'F' then some (c.toNat - 55)
  else none

/-- Body of a JSON string literal (after the opening quote), with the
escapes `JSON.parse` accepts; raw control characters are rejected.
Surrogate pairs from two adjacent \uXXXX escapes are not recombined
into one code point; nothing in scope depends on that. -/
def strBody : Nat → List Char → List Char → Option (String × List Char)
  | 0, _, _ => none
  | _ + 1, _, [] => none
  | fuel + 1, acc, c :: rest =>
    if c == '"' then some (String.mk acc.reverse, rest)
    else if c == '\\' then
      match rest with
      | [] => none
      | e :: rest2 =>
        if e == '"' then strBody fuel ('"' :: acc) rest2
        else if e == '\\' then strBody fuel ('\\' :: acc) rest2
        else if e == '/' then strBody fuel ('/' :: acc) rest2
        else if e == 'b' then strBody fuel (Char.ofNat 8 :: acc) rest2
        else if e == 'f' then strBody fuel (Char.ofNat 12 :: acc) rest2
        else if e == 'n' then strBody fuel ('\n' :: acc) rest2
        else if e == 'r' then strBody fuel ('\r' :: acc) rest2
        else if e == 't' then strBody fuel ('\t' :: acc) rest2
        else if e == 'u' then
          match rest2 with
          | h1 :: h2 :: h3 :: h4 :: rest3 =>
            match hexVal h1, hexVal h2, hexVal h3, hexVal h4 with
            | some v1, some v2, some v3, some v4 =>
              strBody fuel (Char.ofNat (((v1 * 16 + v2) * 16 + v3) * 16 + v4) :: acc) rest3
            | _, _, _, _ => none
          | _ => none
        else none
    else if c.toNat < 32 then none
    else strBody fuel (c :: acc) rest

/-- Longest run of decimal digits. -/
def digitsTake (l : List Char) : List Char × List Char :=
  l.span (fun c => c.isDigit)

/-- JSON number token: `-? (0 | [1-9][0-9]*) (\.[0-9]+)? ([eE][+-]?[0-9]+)?`. -/
def parseNum (cs : List Char) : Option (JsVal × List Char) :=
  let signAndRest : List Char × List Char :=
    match cs with
    | c :: rest => if c == '-' then ([c], rest) else ([], cs)
    | [] => ([], cs)
  match signAndRest.2 with
  | [] => none
  | d :: rest =>
    if !(d.isDigit) then none
    else
      let intPart : List Char × List Char :=
        if d == '0' then ([d], rest) else digitsTake (d :: rest)
      let fracPart : Option (List Char × List Char) :=
        match intPart.2 with
        | '.' :: fr =>
          let fd := digitsTake fr
          if fd.1.isEmpty then none else some ('.' :: fd.1, fd.2)
        | other => some ([], other)
      match fracPart with
      | none => none
      | some fp =>
        let expPart : Option (List Char × List Char) :=
          match fp.2 with
          | e :: er =>
            if e == 'e' || e == 'E' then
              let signedDigits : List Char × List Char :=
                match er with
                | s :: sr => if s == '+' || s == '-' then ([s], sr) else ([], er)
                | [] => ([], er)
              let ed := digitsTake signedDigits.2
              if ed.1.isEmpty then none
              else some (e :: (signedDigits.1 ++ ed.1), ed.2)
            else some ([], fp.2)
          | [] => some ([], fp.2)
        match expPart with
        | none => none
        | some ep =>
          some (JsVal.jnum (String.mk (signAndRest.1 ++ intPart.1 ++ fp.1 ++ ep.1)), ep.2)

mutual

/-- Recursive-descent JSON value parser (fuel-bounded; the fuel used at
the top level is the input length plus one, which suffices since every
nesting step and every collection element consumes input). -/
def parseVal : Nat → List Char → Option (JsVal × List Char)
  | 0, _ => none
  | fuel + 1, cs =>
    match skipWs cs with
    | 'n' :: 'u' :: 'l' :: 'l' :: rest => some (JsVal.jnull, rest)
    | 't' :: 'r' :: 'u' :: 'e' :: rest => some (JsVal.jbool true, rest)
    | 'f' :: 'a' :: 'l' :: 's' :: 'e' :: rest => some (JsVal.jbool false, rest)
    | '"' :: rest =>
      match strBody (rest.length + 1) [] rest with
      | some sr => some (JsVal.jstr sr.1, sr.2)
      | none => none
    | '[' :: rest =>
      (match skipWs rest with
       | ']' :: rest2 => some (JsVal.jarr [], rest2)
       | other => parseArrItems fuel other [])
    | c :: rest =>
      if c == Char.ofNat 123 then
        match skipWs rest with
        | r2 =>
          if r2.head? == some (Char.ofNat 125) then some (JsVal.jobj [], r2.tail)
          else parseObjItems fuel r2 []
      else if c == '-' || c.isDigit then parseNum (c :: rest)
      else none
    | [] => none

/-- Comma-separated array elements, after the opening bracket. -/
def parseArrItems : Nat → List Char → List JsVal → Option (JsVal × List Char)
  | 0, _, _ => none
  | fuel + 1, cs, acc =>
    match parseVal fuel cs with
    | none => none
    | some vr =>
      match skipWs vr.2 with
      | ',' :: r2 => parseArrItems fuel r2 (acc ++ [vr.1])
      | ']' :: r2 => some (JsVal.jarr (acc ++ [vr.1]), r2)
      | _ => none

/-- Comma-separated object members, after the opening brace. -/
def parseObjItems : Nat → List Char → List (String × JsVal) → Option (JsVal × List Char)
  | 0, _, _ => none
  | fuel + 1, cs, acc =>
    match skipWs cs with
    | '"' :: rest =>
      match strBody (rest.length + 1) [] rest with
      | none => none
      | some kr =>
        match skipWs kr.2 with
        | ':' :: r2 =>
          match parseVal fuel r2 with
          | none => none
          | some vr =>
            match skipWs vr.2 with
            | ',' :: r3 => parseObjItems fuel r3 (acc ++ [(kr.1, vr.1)])
            | r3 =>
              if r3.head? == some (Char.ofNat 125) then
                some (JsVal.jobj (acc ++ [(kr.1, vr.1)]), r3.tail)
              else none
        | _ => none
    | _ => none

end

/-- Model of `JSON.parse`: parse one value and require the whole input
to be consumed (modulo trailing whitespace); `none` models the thrown
`SyntaxError`. -/
def jsonParse (s : String) : Option JsVal :=
  match parseVal (s.length + 1) s.data with
  | some vr => if (skipWs vr.2).isEmpty then some vr.1 else none
  | none => none

/-- JavaScript truthiness of a parsed JSON value (`if (x)`).  A number
is falsy exactly when its value is zero, i.e. when its mantissa has no
nonzero digit. -/
def jsTruthy : JsVal → Bool
  | JsVal.jnull => false
  | JsVal.jbool b => b
  | JsVal.jnum tok =>
    (tok.data.takeWhile (fun c => !(c == 'e' || c == 'E'))).any
      (fun c => c.isDigit && !(c == '0'))
  | JsVal.jstr s => !(s == "")
  | JsVal.jarr _ => true
  | JsVal.jobj _ => true

mutual

/-- JavaScript template-literal stringification of a parsed JSON value. -/
def jsToString : JsVal → String
  | JsVal.jnull => "null"
  | JsVal.jbool b => cond b ("true") ("false")
  | JsVal.jnum tok => tok
  | JsVal.jstr s => s
  | JsVal.jobj _ => "[object Object]"
  | JsVal.jarr xs => jsArrStr xs

/-- Array stringification: elements joined with commas. -/
def jsArrStr : List JsVal → String
  | [] => ""
  | [x] => jsElemStr x
  | x :: y :: rest => jsElemStr x ++ "," ++ jsArrStr (y :: rest)

/-- Inside an array, `null` stringifies to the empty string. -/
def jsElemStr : JsVal → String
  | JsVal.jnull => ""
  | v => jsToString v

end

/-- JavaScript property read `v[k]` on a parsed JSON value: `none`
models `undefined`; later duplicate keys win, as in `JSON.parse`. -/
def jsField (v : JsVal) (k : String) : Option JsVal :=
  match v with
  | JsVal.jobj fs => fs.foldl (fun acc p => if p.1 == k then some p.2 else acc) none
  | _ => none

/-- Template `Error occurred during "<action>": <message>` used by the
classifier. -/
def errTemplate (action msg : String) : String :=
  "Error occurred during \"" ++ action ++ "\": " ++ msg

/-- Fallback text when the raw error has an empty message. -/
def unknownCommMsg : String := "Unknown communication error"

/-- Substring the classifier looks for to detect a bad credential. -/
def apiKeyNeedle : String := "API key not valid"

/-- Substring the classifier looks for to detect a transport failure. -/
def xhrNeedle : String := "xhr error"

/-- Fixed invalid-credential message (no action label inside). -/
def invalidKeyMsg : String :=
  "API key is invalid. Please check the key you entered in settings."

/-- Fixed network-failure message (no action label inside). -/
def xhrFailMsg : String :=
  "Communication with AI service failed. This may be caused by network issues or an invalid API key."

/-- Key strings used by the nested-message probe. -/
def errorKey : String := "error"

/-- Second key of the nested-message probe. -/
def messageKey : String := "message"

/-- Embedding of `handleApiError(error, action)`: the raw error is
represented by its message string and the returned `Error` by its
message.  If the message parses as JSON carrying a truthy
`error.message`, that nested message is templated; otherwise (parse
threw) the two substring probes select fixed messages, else the
original message is templated. -/
def handleApiError (errMsg action : String) : String :=
  let base := errTemplate action (if errMsg = "" then unknownCommMsg else errMsg)
  match jsonParse errMsg with
  | some obj =>
    match jsField obj errorKey with
    | some ev =>
      match jsField ev messageKey with
      | some mv => if jsTruthy mv then errTemplate action (jsToString mv) else base
      | none => base
    | none => base
  | none =>
    if strIncludes errMsg apiKeyNeedle then invalidKeyMsg
    else if strIncludes errMsg xhrNeedle then xhrFailMsg
    else base

/-- Finish reasons of the generation service, a closed enumeration in
the client SDK typings. -/
inductive FinishReason where
  | FINISH_REASON_UNSPECIFIED : FinishReason
  | STOP : FinishReason
  | MAX_TOKENS : FinishReason
  | SAFETY : FinishReason
  | RECITATION : FinishReason
  | LANGUAGE : FinishReason
  | BLOCKLIST : FinishReason
  | PROHIBITED_CONTENT : FinishReason
  | SPII : FinishReason
  | MALFORMED_FUNCTION_CALL : FinishReason
  | OTHER : FinishReason
  | IMAGE_SAFETY : FinishReason
deriving DecidableEq

/-- Wire spelling of a finish reason (the SDK enum is string-valued). -/
def frToString : FinishReason → String
  | FinishReason.FINISH_REASON_UNSPECIFIED => "FINISH_REASON_UNSPECIFIED"
  | FinishReason.STOP => "STOP"
  | FinishReason.MAX_TOKENS => "MAX_TOKENS"
  | FinishReason.SAFETY => "SAFETY"
  | FinishReason.RECITATION => "RECITATION"
  | FinishReason.LANGUAGE => "LANGUAGE"
  | FinishReason.BLOCKLIST => "BLOCKLIST"
  | FinishReason.PROHIBITED_CONTENT => "PROHIBITED_CONTENT"
  | FinishReason.SPII => "SPII"
  | FinishReason.MALFORMED_FUNCTION_CALL => "MALFORMED_FUNCTION_CALL"
  | FinishReason.OTHER => "OTHER"
  | FinishReason.IMAGE_SAFETY => "IMAGE_SAFETY"

/-- Inline binary payload of a request or response part. -/
structure Blob where
  mimeType : String
  data : String
deriving DecidableEq

/-- One content part of a model response candidate. -/
structure RespPart where
  inlineData : Option Blob
  text : Option String
deriving DecidableEq

/-- Safety rating attached to a candidate (only `blocked` is read). -/
structure SafetyRating where
  blocked : Bool
deriving DecidableEq

/-- Content of a candidate. -/
structure RespContent where
  parts : Option (List RespPart)
deriving DecidableEq

/-- One candidate of a raw model response. -/
structure Candidate where
  content : Option RespContent
  finishReason : Option FinishReason
  safetyRatings : Option (List SafetyRating)
deriving DecidableEq

/-- Raw response of the image-editing model. -/
structure RawResponse where
  candidates : Option (List Candidate)
deriving DecidableEq

/-- The candidate the interpreter reads: `response.candidates?.[0]`. -/
def candidateOf (r : RawResponse) : Option Candidate :=
  r.candidates.bind List.head?

/-- The content parts the interpreter reads:
`candidate?.content?.parts`. -/
def partsOf (r : RawResponse) : Option (List RespPart) :=
  (candidateOf r).bind (fun c => c.content.bind (fun ct => ct.parts))

/-- Whether some safety rating on the candidate is blocked:
`candidate?.safetyRatings?.some(r => r.blocked)`. -/
def safetyFlag (c : Option Candidate) : Bool :=
  match c.bind (fun x => x.safetyRatings) with
  | some rs => rs.any (fun x => x.blocked)
  | none => false

/-- Detailed message for a structurally invalid response, built from
the optional finish reason and safety ratings. -/
def malformedMsgCore (fr : Option FinishReason) (blocked : Bool) : String :=
  (match fr with
   | some x => "AI did not return a valid result." ++ " Reason: " ++ frToString x ++ "."
   | none => "AI did not return a valid result.") ++
  (if blocked then (" The prompt may have been blocked by safety filters.") else (""))

/-- Malformed-response message for a concrete raw response. -/
def malformedMsg (r : RawResponse) : String :=
  malformedMsgCore ((candidateOf r).bind (fun c => c.finishReason)) (safetyFlag (candidateOf r))

/-- Fixed message thrown when the model answers with text instead of an
image (the first content part has truthy text). -/
def refusalMsg : String :=
  "Model responded with text instead of an image. The prompt may have been blocked."

/-- Message of the final fallthrough throw (its English duplicate on
the next source line is unreachable dead code). -/
def noImageMsg : String := "AI 未能返回预期的图片结果。"

/-- First part carrying inline image data, if any (the `for` loop). -/
def firstInlinePart : List RespPart → Option Blob
  | [] => none
  | p :: ps =>
    match p.inlineData with
    | some b => some b
    | none => firstInlinePart ps

/-- Data URL built from an inline response blob. -/
def dataUrlOf (b : Blob) : String :=
  "data:" ++ b.mimeType ++ ";base64," ++ b.data

/-- Interpretation of a raw response, as performed inside the `try`
block of `callImageEditingModel`: a returned data URL on the first
inline-data part, or the thrown error message. -/
def interpretRaw (r : RawResponse) : Except String String :=
  match partsOf r with
  | none => Except.error (malformedMsg r)
  | some [] => Except.error (malformedMsg r)
  | some (p0 :: ps) =>
    match firstInlinePart (p0 :: ps) with
    | some b => Except.ok (dataUrlOf b)
    | none =>
      match p0.text with
      | some t => if t = "" then Except.error noImageMsg else Except.error refusalMsg
      | none => Except.error noImageMsg

/-- Needle of the first rethrow test in `callImageEditingModel`. -/
def shortSentinel : String := "Model responded with text"

/-- Needle of the second rethrow test in `callImageEditingModel`. -/
def malSentinel : String := "AI did not return a valid result"

/-- Needle the per-operation retry logic looks for. -/
def longSentinel : String := "Model responded with text instead of an image"

/-- Embedding of `callImageEditingModel` applied to the raw response of
one invocation: interpreter errors carrying either sentinel are
rethrown unchanged, anything else is wrapped by the classifier. -/
def callImageEditingModel (raw : RawResponse) (action : String) : Except String String :=
  match interpretRaw raw with
  | Except.ok u => Except.ok u
  | Except.error m =>
    if strIncludes m shortSentinel || strIncludes m malSentinel then Except.error m
    else Except.error (handleApiError m action)

/-- An input image file as the normalizer sees it: declared mime type,
decoded pixel dimensions, and its byte content abstracted as an abstract
token. -/
structure ImgFile where
  name : String
  type : String
  width : Nat
  height : Nat
  data : String
deriving DecidableEq

/-- The supported mime types of `resizeImageForApi`. -/
def SUPPORTED_MIME_TYPES : List String := ["image/jpeg", "image/png"]

/-- Longer-side pixel bound of `resizeImageForApi`. -/
def MAX_DIMENSION : Nat := 2048

/-- Membership in the supported list. -/
def supportedMime (t : String) : Bool := SUPPORTED_MIME_TYPES.contains t

/-- The `needsResize` test: either decoded dimension exceeds the bound. -/
def needsResizeB (f : ImgFile) : Bool :=
  decide (MAX_DIMENSION < f.width) || decide (MAX_DIMENSION < f.height)

/-- Exact-rational model of `Math.round(num / den)` for nonnegative
arguments: round half up. -/
def jsRound (num den : Nat) : Nat := (2 * num + den) / (2 * den)

/-- Scaled dimensions chosen by `resizeImageForApi`. -/
def resizeDims (f : ImgFile) : Nat × Nat :=
  if needsResizeB f then
    if f.height < f.width then
      (MAX_DIMENSION, jsRound (f.height * MAX_DIMENSION) f.width)
    else
      (jsRound (f.width * MAX_DIMENSION) f.height, MAX_DIMENSION)
  else (f.width, f.height)

/-- Replacement file name: strip the extension (JavaScript
`name.split('.').slice(0, -1).join('.') || 'image'`) and append
`.png`. -/
def pngName (n : String) : String :=
  (let stem := String.intercalate (".") ((n.splitOn (".")).dropLast)
   if stem = "" then ("image") else stem) ++ ".png"

/-- Abstraction of drawing the decoded image scaled onto a canvas and
encoding the canvas as PNG: an abstract payload token determined by the
scaled dimensions and the source pixels.  No claim in scope depends on
the concrete bytes of a re-encode, only on identity (when the input is
passed through untouched) and on dimensions and mime type. -/
def canvasPngData (w h : Nat) (src : String) : String :=
  "png[" ++ toString w ++ "x" ++ toString h ++ "]" ++ src

/-- Result of normalization: the (possibly replaced) file and the mime
type reported alongside it. -/
structure NormResult where
  file : ImgFile
  mimeType : String
deriving DecidableEq

/-- Embedding of `resizeImageForApi`: pass the file through untouched
when no resize and no conversion is needed, otherwise re-render on a
canvas (always PNG). -/
def resizeImageForApi (f : ImgFile) : NormResult :=
  if !needsResizeB f && supportedMime f.type then ⟨f, f.type⟩
  else
    ⟨⟨pngName f.name, "image/png", (resizeDims f).1, (resizeDims f).2,
      canvasPngData (resizeDims f).1 (resizeDims f).2 f.data⟩, "image/png"⟩

/-- A part of a request body. -/
inductive RequestPart where
  | inlineData (b : Blob) : RequestPart
  | text (t : String) : RequestPart
deriving DecidableEq

/-- Embedding of `fileToGenerativePart`: normalize, then pair the
reported mime type with the base64 payload.  Reading the processed file
back as base64 is modelled as the identity on the abstract payload
token. -/
def fileToGenerativePart (f : ImgFile) : RequestPart :=
  RequestPart.inlineData
    ⟨(resizeImageForApi f).mimeType, (resizeImageForApi f).file.data⟩

/-- Transcript of one logical operation: every request body sent to the
editing model, in order, and the final outcome (`Except.error` models a
thrown error by its message). -/
structure Transcript where
  requests : List (List RequestPart)
  outcome : Except String String

/-- JavaScript word character, for the `\w` class (no `u` flag). -/
def isWordChar (c : Char) : Bool := c.isAlpha || c.isDigit || c == '_'

/-- Characters matched by `.` in a JavaScript regex without the `s`
flag (no line terminators). -/
def dotMatches (c : Char) : Bool :=
  !(c == '\n') && !(c == '\r') && !(c.toNat == 8232) && !(c.toNat == 8233)

/-- Strip a literal from the head of the input. -/
def stripLead : List Char → List Char → Option (List Char)
  | [], cs => some cs
  | _ :: _, [] => none
  | p :: ps, c :: cs => if c == p then stripLead ps cs else none

/-- Embedding of the match
`imageDataUrl.match(/^data:(image\/\w+);base64,(.*)$/)`, returning the
two capture groups.  `\w+` is a maximal run (the following literal
`;` is not a word character, so greediness never backtracks), and
`(.*)$` forces the payload to contain no line terminator. -/
def parseDataUrl (s : String) : Option (String × String) :=
  match stripLead ("data:image/").data s.data with
  | none => none
  | some rest =>
    let run := rest.span isWordChar
    if run.1.isEmpty then none
    else
      match stripLead (";base64,").data run.2 with
      | none => none
      | some payload =>
        if payload.all dotMatches then
          some ("image/" ++ String.mk run.1, String.mk payload)
        else none

/-- Window test of `extractDecade`: four ASCII digits followed by a
literal `s` at the current position. -/
def decadeAt : List Char → Option String
  | a :: b :: c :: d :: e :: _ =>
    if a.isDigit && b.isDigit && c.isDigit && d.isDigit && e == 's'
    then some (String.mk [a, b, c, d, e]) else none
  | _ => none

/-- Left-to-right scan for the first position matching `\d{4}s`. -/
def decadeScan : List Char → Option String
  | [] => none
  | c :: rest =>
    match decadeAt (c :: rest) with
    | some s => some s
    | none => decadeScan rest

/-- Embedding of `extractDecade`: first match of `/(\d{4}s)/` in the
prompt, if any. -/
def extractDecade (prompt : String) : Option String := decadeScan prompt.data

/-- The fixed fallback template of the decade transform. -/
def getFallbackPrompt (decade : String) : String :=
  "Create a photograph of the person in this image as if they were living in the " ++
  decade ++
  ". The photograph should capture the distinct fashion, hairstyles, and overall atmosphere of that time period. Ensure the final image is a clear photograph that looks authentic to the era."

/-- JavaScript template interpolation of a possibly-null string. -/
def optToJsStr : Option String → String
  | some s => s
  | none => "null"

/-- Shared try/catch shape of the four prompt-prefix operations
(filter, style, adjustment, texture), which are textually parallel in
the source: call once with the primary parts; if the thrown message
contains the refusal sentinel, call once more with the fallback parts;
otherwise rethrow. -/
def runWithFallback (svc : Nat → RawResponse) (primary fallback : List RequestPart)
    (act actFb : String) : Transcript :=
  match callImageEditingModel (svc 0) act with
  | Except.ok url => ⟨[primary], Except.ok url⟩
  | Except.error msg =>
    if strIncludes msg longSentinel then
      ⟨[primary, fallback], callImageEditingModel (svc 1) actFb⟩
    else ⟨[primary], Except.error msg⟩

/-- Embedding of `generateEditedImage` (point edit; no fallback). -/
def generateEditedImage (svc : Nat → RawResponse) (imageFile : ImgFile)
    (prompt : String) (hx hy : Int) : Transcript :=
  let imagePart := fileToGenerativePart imageFile
  let textPart := RequestPart.text
    ("Apply this edit at hotspot (" ++ toString hx ++ ", " ++ toString hy ++ "): " ++ prompt)
  ⟨[[imagePart, textPart]], callImageEditingModel (svc 0) "retouch"⟩

/-- Embedding of `generateFilteredImage`. -/
def generateFilteredImage (svc : Nat → RawResponse) (imageFile : ImgFile)
    (prompt : String) : Transcript :=
  let imagePart := fileToGenerativePart imageFile
  runWithFallback svc
    [imagePart, RequestPart.text ("Apply this filter: " ++ prompt)]
    [imagePart, RequestPart.text prompt]
    "filter" "filter (fallback)"

/-- Embedding of `generateStyledImage`. -/
def generateStyledImage (svc : Nat → RawResponse) (imageFile : ImgFile)
    (prompt : String) : Transcript :=
  let imagePart := fileToGenerativePart imageFile
  runWithFallback svc
    [imagePart, RequestPart.text ("Apply this artistic style: " ++ prompt)]
    [imagePart, RequestPart.text prompt]
    "apply style" "apply style (fallback)"

/-- Embedding of `generateAdjustedImage`. -/
def generateAdjustedImage (svc : Nat → RawResponse) (imageFile : ImgFile)
    (prompt : String) : Transcript :=
  let imagePart := fileToGenerativePart imageFile
  runWithFallback svc
    [imagePart, RequestPart.text ("Apply this adjustment: " ++ prompt)]
    [imagePart, RequestPart.text prompt]
    "adjustment" "adjustment (fallback)"

/-- Embedding of `generateTexturedImage`. -/
def generateTexturedImage (svc : Nat → RawResponse) (imageFile : ImgFile)
    (prompt : String) : Transcript :=
  let imagePart := fileToGenerativePart imageFile
  runWithFallback svc
    [imagePart, RequestPart.text ("Apply this texture: " ++ prompt)]
    [imagePart, RequestPart.text prompt]
    "texture" "texture (fallback)"

/-- Embedding of `removeBackgroundImage` (single call, no fallback). -/
def removeBackgroundImage (svc : Nat → RawResponse) (imageFile : ImgFile) : Transcript :=
  let imagePart := fileToGenerativePart imageFile
  let textPart := RequestPart.text
    "Remove the background of this image, leaving only the main subject with a transparent background."
  ⟨[[imagePart, textPart]], callImageEditingModel (svc 0) "background removal"⟩

/-- Pairs each source image part with its 1-based index, mirroring
`sourceImages.map((file, index) => ... index + 1)`; `Promise.all`
preserves this order regardless of completion order. -/
def indexedParts : Nat → List ImgFile → List (RequestPart × Nat)
  | _, [] => []
  | i, f :: rest => (fileToGenerativePart f, i + 1) :: indexedParts (i + 1) rest

/-- One enumeration line of the fusion instruction text. -/
def srcLine (i : Nat) : String :=
  "Source image " ++ toString i ++ " is provided. "

/-- Opening sentence of the fusion instruction text. -/
def fuseBase : String := "Fuse the images. The main image is the one I\x27m editing. "

/-- Embedding of `generateFusedImage` (no fallback): one request with
the main image part, the indexed source image parts, and the composite
text; every error is additionally wrapped by the classifier under the
`fusion` label (the first, localized call-site label is `合成`; the
English duplicate after it is unreachable). -/
def generateFusedImage (svc : Nat → RawResponse) (mainImage : ImgFile)
    (sourceImages : List ImgFile) (prompt : String) : Transcript :=
  let mainImagePart := fileToGenerativePart mainImage
  let sourceImageParts := indexedParts 0 sourceImages
  let fullPrompt :=
    (sourceImageParts.foldl (fun acc pr => acc ++ srcLine pr.2) fuseBase) ++
    ("Instructions: " ++ prompt)
  let allParts :=
    mainImagePart :: (sourceImageParts.map (fun p => p.1) ++ [RequestPart.text fullPrompt])
  let outcome :=
    match callImageEditingModel (svc 0) "合成" with
    | Except.ok u => Except.ok u
    | Except.error m => Except.error (handleApiError m ("fusion"))
  ⟨[allParts], outcome⟩

/-- Action label of the first decade-transform attempt,
`generate ${extractDecade(prompt)} image` (a null decade prints as
`null`). -/
def decadeAct (prompt : String) : String :=
  "generate " ++ optToJsStr (extractDecade prompt) ++ " image"

/-- Message thrown when the incoming data URL does not match the
expected pattern. -/
def invalidUrlMsg : String := "Invalid image data URL format."

/-- Embedding of `generateDecadeImage`: parse the data URL (failing
before any invocation if it does not match), try the user prompt, and
on a refusal retry once with the fixed fallback template - unless no
decade token can be extracted, in which case the original error is
rethrown. -/
def generateDecadeImage (svc : Nat → RawResponse) (imageDataUrl prompt : String) : Transcript :=
  match parseDataUrl imageDataUrl with
  | none => ⟨[], Except.error invalidUrlMsg⟩
  | some md =>
    let imagePart := RequestPart.inlineData ⟨md.1, md.2⟩
    let primary := [imagePart, RequestPart.text prompt]
    match callImageEditingModel (svc 0) (decadeAct prompt) with
    | Except.ok u => ⟨[primary], Except.ok u⟩
    | Except.error msg =>
      if strIncludes msg longSentinel then
        match extractDecade prompt with
        | none => ⟨[primary], Except.error msg⟩
        | some decade =>
          ⟨[primary, [imagePart, RequestPart.text (getFallbackPrompt decade)]],
           callImageEditingModel (svc 1) ("generate " ++ decade ++ " image (fallback)")⟩
      else ⟨[primary], Except.error msg⟩

/-- A response whose interpretation is the refusal error. -/
def refusedResp (r : RawResponse) : Prop :=
  interpretRaw r = Except.error refusalMsg

/-- Safety-filter detail sentence appended to malformed messages. -/
def safetyDetailMsg : String := " The prompt may have been blocked by safety filters."

/-- Concatenation of a list of strings. -/
def strConcat : List String → String
  | [] => ""
  | s :: rest => s ++ strConcat rest

/-- Specification-side rendering of the fusion instruction text: the
fixed opening sentence, one enumeration line per source-image index 1
through n in order, and the instruction suffix. -/
def fusionText (n : Nat) (prompt : String) : String :=
  fuseBase ++ strConcat ((List.range' 1 n).map srcLine) ++ ("Instructions: " ++ prompt)

/-- Concrete fixtures used by witnesses and counterexamples. -/
def helloW : String := "hello"

/-- Action label fixture. -/
def retouchActW : String := "retouch"

/-- Mime type fixture. -/
def pngMimeW : String := "image/png"

/-- Base64 payload fixture. -/
def b64W : String := "QUJD"

/-- The raw error message of the C7 scenario, a JSON object literal. -/
def keyJsonMsgW : String := "\x7b\"error\":\x7b\"message\":\"API key not valid\"\x7d\x7d"

/-- Valid data URL fixture. -/
def urlW : String := "data:image/png;base64,QUJD"

/-- Non-matching data URL fixture. -/
def badUrlW : String := "hello there"

/-- Prompt containing a decade token. -/
def decadePromptW : String := "portrait as if living in the 1970s"

/-- Prompt with no decade token. -/
def noDecadePromptW : String := "portrait in renaissance style"

/-- Generic prompt fixture. -/
def promptW : String := "vintage sepia"

/-- Fusion prompt fixture. -/
def fusePromptW : String := "blend them"

/-- Response whose only part carries text: a refusal. -/
def refuseRespW : RawResponse := ⟨some [⟨some ⟨some [⟨none, some helloW⟩]⟩, none, none⟩]⟩

/-- Response whose only part carries the empty text. -/
def respTextEmptyW : RawResponse := ⟨some [⟨some ⟨some [⟨none, some ("")⟩]⟩, none, none⟩]⟩

/-- Response carrying inline image data. -/
def okRespW : RawResponse := ⟨some [⟨some ⟨some [⟨some ⟨pngMimeW, b64W⟩, none⟩]⟩, none, none⟩]⟩

/-- Structurally invalid response with finish reason and safety data. -/
def respMalW : RawResponse := ⟨some [⟨none, some FinishReason.SAFETY, some [⟨true⟩]⟩]⟩

/-- Response with a text part before the inline-data part. -/
def respImgW : RawResponse :=
  ⟨some [⟨some ⟨some [⟨none, some helloW⟩, ⟨some ⟨pngMimeW, b64W⟩, none⟩]⟩, none, none⟩]⟩

/-- Service oracle: first invocation refused, later ones succeed. -/
def svcW : Nat → RawResponse := fun n => if n = 0 then refuseRespW else okRespW

/-- Service oracle: every invocation succeeds. -/
def svcOkW : Nat → RawResponse := fun _ => okRespW

/-- In-bound JPEG file fixture. -/
def fileW : ImgFile := ⟨"photo.jpg", "image/jpeg", 640, 480, "PIX"⟩

/-- Oversized PNG file fixture. -/
def bigFileW : ImgFile := ⟨"big.png", "image/png", 4096, 1000, "BPIX"⟩

/-- In-bound unsupported-type file fixture. -/
def webpFileW : ImgFile := ⟨"pic.webp", "image/webp", 800, 600, "WPIX"⟩

/-- Fusion source fixture. -/
def srcFileW : ImgFile := ⟨"s1.png", "image/png", 10, 10, "S1"⟩

/-- Second fusion source fixture. -/
def srcFile2W : ImgFile := ⟨"s2.png", "image/png", 20, 20, "S2"⟩

theorem leadsWith_refl_app (l t : List Char) : leadsWith l (l ++ t) = true := by
  induction l with
  | nil => rfl
  | cons a as ih => simp [leadsWith, ih]

theorem occursIn_app_self (sub x y : List Char) : occursIn sub (x ++ (sub ++ y)) = true := by
  induction x with
  | nil =>
    cases sub with
    | nil => cases y <;> simp [occursIn, List.isEmpty, leadsWith]
    | cons a as =>
      have h := leadsWith_refl_app (a :: as) y
      simp only [List.nil_append, List.cons_append] at h ⊢
      simp [occursIn, h]
  | cons c cs ih =>
    simp [occursIn, ih]

theorem strData_append (a b : String) : (a ++ b).data = a.data ++ b.data := by
  cases a; cases b; rfl

theorem strIncludes_app_self (x sub y : String) : strIncludes (x ++ sub ++ y) sub = true := by
  unfold strIncludes
  rw [strData_append, strData_append]
  rw [List.append_assoc]
  exact occursIn_app_self sub.data x.data y.data

theorem occursIn_false_of_head_absent (c : Char) (rest l : List Char)
    (h : l.all (fun x => !(x == c)) = true) : occursIn (c :: rest) l = false := by
  induction l with
  | nil => rfl
  | cons x xs ih =>
    simp only [List.all_cons, Bool.and_eq_true] at h
    have hx : x ≠ c := by simpa using h.1
    have hcx : (c == x) = false := beq_eq_false_iff_ne.mpr (fun hh => hx hh.symm)
    simp [occursIn, leadsWith, hcx, ih h.2]

theorem strIncludes_false_of_head_absent (s t : String) (c : Char) (rest : List Char)
    (ht : t.data = c :: rest) (h : s.data.all (fun x => !(x == c)) = true) :
    strIncludes s t = false := by
  unfold strIncludes; rw [ht]; exact occursIn_false_of_head_absent c rest s.data h

/-- The interpretation of any raw response is an inline-data success, a
refusal, a malformed-structure error, or the fallthrough error. -/
theorem interpretRaw_shape (r : RawResponse) :
    (∃ u, interpretRaw r = Except.ok u) ∨
    interpretRaw r = Except.error refusalMsg ∨
    (∃ fr b, interpretRaw r = Except.error (malformedMsgCore fr b)) ∨
    interpretRaw r = Except.error noImageMsg := by
  unfold interpretRaw
  cases hp : partsOf r with
  | none => exact Or.inr (Or.inr (Or.inl ⟨_, _, rfl⟩))
  | some ps =>
    cases ps with
    | nil => exact Or.inr (Or.inr (Or.inl ⟨_, _, rfl⟩))
    | cons p0 rest =>
      dsimp only
      cases hf : firstInlinePart (p0 :: rest) with
      | some b => exact Or.inl ⟨_, rfl⟩
      | none =>
        dsimp only
        cases ht : p0.text with
        | some t =>
          dsimp only
          by_cases he : t = ""
          · rw [if_pos he]
            exact Or.inr (Or.inr (Or.inr rfl))
          · rw [if_neg he]
            exact Or.inr (Or.inl rfl)
        | none => exact Or.inr (Or.inr (Or.inr rfl))

theorem refusal_has_short : strIncludes refusalMsg shortSentinel = true := by decide

theorem refusal_has_long : strIncludes refusalMsg longSentinel = true := by decide

theorem noImage_not_short : strIncludes noImageMsg shortSentinel = false := by decide

theorem noImage_not_mal : strIncludes noImageMsg malSentinel = false := by decide

theorem noImage_not_apiKey : strIncludes noImageMsg apiKeyNeedle = false := by decide

theorem noImage_not_xhr : strIncludes noImageMsg xhrNeedle = false := by decide

theorem noImage_ne_empty : noImageMsg ≠ "" := by decide

theorem noImage_ne_refusal : noImageMsg ≠ refusalMsg := by decide

theorem noImage_unparsed : jsonParse noImageMsg = none := rfl

/-- Every malformed-structure message carries the rethrow sentinel of
`callImageEditingModel` but never the refusal sentinels. -/
theorem malformed_sentinels (fr : Option FinishReason) (b : Bool) :
    strIncludes (malformedMsgCore fr b) malSentinel = true ∧
    strIncludes (malformedMsgCore fr b) shortSentinel = false ∧
    strIncludes (malformedMsgCore fr b) longSentinel = false ∧
    malformedMsgCore fr b ≠ refusalMsg := by
  cases fr with
  | none => cases b <;> decide
  | some x => cases x <;> cases b <;> decide

/-- The classifier on a non-JSON message hitting neither substring
probe: plain templating of the original message. -/
theorem handleApiError_unparsed (msg act : String) (h1 : jsonParse msg = none)
    (h2 : strIncludes msg apiKeyNeedle = false) (h3 : strIncludes msg xhrNeedle = false)
    (h4 : msg ≠ "") :
    handleApiError msg act = errTemplate act msg := by
  unfold handleApiError
  rw [h1]
  simp [h2, h3, h4]

theorem callModel_of_ok (r : RawResponse) (act u : String)
    (h : interpretRaw r = Except.ok u) :
    callImageEditingModel r act = Except.ok u := by
  unfold callImageEditingModel; rw [h]

theorem callModel_of_err (r : RawResponse) (act m : String)
    (h : interpretRaw r = Except.error m) :
    callImageEditingModel r act =
      (if strIncludes m shortSentinel || strIncludes m malSentinel then Except.error m
       else Except.error (handleApiError m act)) := by
  unfold callImageEditingModel; rw [h]

theorem callModel_of_refusal (r : RawResponse) (act : String) (h : refusedResp r) :
    callImageEditingModel r act = Except.error refusalMsg := by
  rw [callModel_of_err r act refusalMsg h]
  simp [refusal_has_short]

/-- The retry probe on the outcome of one `callImageEditingModel` call
succeeds exactly when the underlying response was a refusal, for any
action label whose wrapped fallthrough message avoids the sentinel. -/
theorem callModel_retry_iff (r : RawResponse) (act : String)
    (ha : strIncludes (errTemplate act noImageMsg) longSentinel = false) :
    ((∃ m, callImageEditingModel r act = Except.error m ∧ strIncludes m longSentinel = true)
      ↔ refusedResp r) := by
  rcases interpretRaw_shape r with ⟨u, hu⟩ | hr | ⟨fr, b, hm⟩ | hn
  · constructor
    · rintro ⟨m, hcm, _⟩
      rw [callModel_of_ok r act u hu] at hcm
      cases hcm
    · intro h
      rw [refusedResp, hu] at h
      cases h
  · constructor
    · intro _; exact hr
    · intro _
      exact ⟨refusalMsg, callModel_of_refusal r act hr, refusal_has_long⟩
  · obtain ⟨hmal, hshort, hlong, hne⟩ := malformed_sentinels fr b
    constructor
    · rintro ⟨m, hcm, hml⟩
      rw [callModel_of_err r act _ hm] at hcm
      rw [hshort, hmal] at hcm
      simp only [Bool.false_or, if_pos] at hcm
      cases hcm
      rw [hlong] at hml
      cases hml
    · intro h
      rw [refusedResp, hm] at h
      exact absurd (by injection h) hne
  · constructor
    · rintro ⟨m, hcm, hml⟩
      rw [callModel_of_err r act _ hn] at hcm
      rw [noImage_not_short, noImage_not_mal] at hcm
      simp only [Bool.or_self, if_neg] at hcm
      rw [handleApiError_unparsed noImageMsg act noImage_unparsed noImage_not_apiKey
        noImage_not_xhr noImage_ne_empty] at hcm
      cases hcm
      rw [ha] at hml
      cases hml
    · intro h
      rw [refusedResp, hn] at h
      exact absurd (by injection h) noImage_ne_refusal

/-- Request count of the shared fallback shape: at most two, and
exactly two iff the first response was a refusal. -/
theorem runWithFallback_spec (svc : Nat → RawResponse) (prim fb : List RequestPart)
    (act actFb : String)
    (ha : strIncludes (errTemplate act noImageMsg) longSentinel = false) :
    (runWithFallback svc prim fb act actFb).requests.length ≤ 2 ∧
    ((runWithFallback svc prim fb act actFb).requests.length = 2 ↔ refusedResp (svc 0)) := by
  unfold runWithFallback
  cases hc : callImageEditingModel (svc 0) act with
  | ok u =>
    refine ⟨by simp, ?_, ?_⟩
    · intro h; simp at h
    · intro h
      rw [callModel_of_refusal (svc 0) act h] at hc
      cases hc
  | error m =>
    dsimp only
    by_cases hl : strIncludes m longSentinel = true
    · rw [if_pos hl]
      refine ⟨by simp, fun _ => ?_, fun _ => by simp⟩
      exact (callModel_retry_iff (svc 0) act ha).mp ⟨m, hc, hl⟩
    · rw [if_neg hl]
      refine ⟨by simp, ?_, ?_⟩
      · intro h; simp at h
      · intro h
        rw [callModel_of_refusal (svc 0) act h] at hc
        cases hc
        exact absurd refusal_has_long hl

/-- Characters only ever appearing in a decade token. -/
theorem decadeAt_chars (l : List Char) (d : String) (h : decadeAt l = some d) :
    d.data.all (fun c => c.isDigit || c == 's') = true := by
  rw [decadeAt.eq_def] at h
  split at h
  · rename_i a b c d4 e rest
    split at h
    · rename_i hcond
      cases h
      simp only [Bool.and_eq_true, beq_iff_eq] at hcond
      obtain ⟨⟨⟨⟨h1, h2⟩, h3⟩, h4⟩, h5⟩ := hcond
      simp [h1, h2, h3, h4, h5]
    · cases h
  · cases h

/-- Characters only ever appearing in an extracted decade. -/
theorem decadeScan_chars (l : List Char) (d : String) (h : decadeScan l = some d) :
    d.data.all (fun c => c.isDigit || c == 's') = true := by
  induction l with
  | nil => cases h
  | cons c rest ih =>
    rw [decadeScan] at h
    cases hda : decadeAt (c :: rest) with
    | some s =>
      rw [hda] at h
      cases h
      exact decadeAt_chars _ _ hda
    | none =>
      rw [hda] at h
      exact ih h

/-- Neither a digit nor `s` is the letter `M`. -/
theorem digit_or_s_ne_M (c : Char) (h : (c.isDigit || c == 's') = true) :
    (c == 'M') = false := by
  cases hM : c == 'M' with
  | false => rfl
  | true =>
    have hc : c = 'M' := eq_of_beq hM
    subst hc
    simp at h

/-- A string without the letter `M` never contains `longSentinel`. -/
theorem strIncludes_long_false_of_noM (s : String)
    (h : s.data.all (fun c => !(c == 'M')) = true) :
    strIncludes s longSentinel = false :=
  strIncludes_false_of_head_absent s longSentinel 'M' longSentinel.data.tail rfl h

/-- The wrapped fallthrough message of the decade operation never
contains the retry sentinel, whatever the prompt (its action label is
built only from `generate`, a decade token or `null`, and `image`). -/
theorem decadeAct_template_noM (p : String) :
    strIncludes (errTemplate (decadeAct p) noImageMsg) longSentinel = false := by
  apply strIncludes_long_false_of_noM
  unfold errTemplate decadeAct
  have hx : (optToJsStr (extractDecade p)).data.all (fun c => !(c == 'M')) = true := by
    cases hd : extractDecade p with
    | none => decide
    | some d =>
      have hg := decadeScan_chars p.data d hd
      simp only [optToJsStr, List.all_eq_true] at hg ⊢
      intro c hc
      simpa using digit_or_s_ne_M c (by simpa using hg c hc)
  simp +decide [strData_append, List.all_append, hx]

theorem strAppend_assoc (a b c : String) : a ++ b ++ c = a ++ (b ++ c) := by
  cases a with | mk la =>
  cases b with | mk lb =>
  cases c with | mk lc =>
  show String.mk ((la ++ lb) ++ lc) = String.mk (la ++ (lb ++ lc))
  rw [List.append_assoc]

theorem strAppend_empty (a : String) : a ++ "" = a := by
  cases a with | mk la =>
  show String.mk (la ++ []) = String.mk la
  rw [List.append_nil]

/-- A malformed message built from a present finish reason contains its
wire spelling. -/
theorem malformedMsgCore_mentions_reason (fr : FinishReason) (b : Bool) :
    strIncludes (malformedMsgCore (some fr) b) (frToString fr) = true := by
  unfold malformedMsgCore
  dsimp only
  rw [strAppend_assoc ("AI did not return a valid result." ++ " Reason: " ++ frToString fr)]
  exact strIncludes_app_self ("AI did not return a valid result." ++ " Reason: ")
    (frToString fr) _

/-- A malformed message built with a blocked safety rating contains the
safety detail sentence. -/
theorem malformedMsgCore_mentions_safety (fr : Option FinishReason) :
    strIncludes (malformedMsgCore fr true) safetyDetailMsg = true := by
  unfold malformedMsgCore
  rw [if_pos rfl]
  have h := strIncludes_app_self
    (match fr with
     | some x => "AI did not return a valid result." ++ " Reason: " ++ frToString x ++ "."
     | none => "AI did not return a valid result.") safetyDetailMsg ("")
  rw [strAppend_assoc, strAppend_empty] at h
  exact h

/-- If every part of a prefix lacks inline data, the scan lands on the
marked part. -/
theorem firstInlinePart_app (pre : List RespPart) (pb : RespPart) (b : Blob)
    (suf : List RespPart) (hpre : ∀ q ∈ pre, q.inlineData = none)
    (hb : pb.inlineData = some b) :
    firstInlinePart (pre ++ pb :: suf) = some b := by
  induction pre with
  | nil => simp [firstInlinePart, hb]
  | cons q qs ih =>
    have hq : q.inlineData = none := hpre q (by simp)
    simp only [List.cons_append, firstInlinePart, hq]
    exact ih (fun x hx => hpre x (by simp [hx]))

/-- If no part carries inline data, the scan fails. -/
theorem firstInlinePart_none (ps : List RespPart) (h : ∀ q ∈ ps, q.inlineData = none) :
    firstInlinePart ps = none := by
  induction ps with
  | nil => rfl
  | cons q qs ih =>
    have hq := h q (by simp)
    simp only [firstInlinePart, hq]
    exact ih (fun x hx => h x (by simp [hx]))

theorem interpretRaw_of_parts_bad (r : RawResponse)
    (h : partsOf r = none ∨ partsOf r = some []) :
    interpretRaw r = Except.error (malformedMsg r) := by
  unfold interpretRaw
  rcases h with h | h <;> rw [h]

theorem interpretRaw_of_parts_inline (r : RawResponse) (ps : List RespPart) (b : Blob)
    (hp : partsOf r = some ps) (hne : ps ≠ []) (hf : firstInlinePart ps = some b) :
    interpretRaw r = Except.ok (dataUrlOf b) := by
  unfold interpretRaw
  rw [hp]
  cases ps with
  | nil => exact absurd rfl hne
  | cons p0 rest =>
    dsimp only
    rw [hf]

theorem interpretRaw_of_parts_text (r : RawResponse) (p0 : RespPart) (ps : List RespPart)
    (t : String) (hp : partsOf r = some (p0 :: ps)) (hf : firstInlinePart (p0 :: ps) = none)
    (ht : p0.text = some t) (hne : t ≠ "") :
    interpretRaw r = Except.error refusalMsg := by
  unfold interpretRaw
  rw [hp]
  dsimp only
  rw [hf]
  dsimp only
  rw [ht]
  dsimp only
  rw [if_neg hne]

/-- The templated message always contains its action label. -/
theorem errTemplate_mentions_action (act t : String) :
    strIncludes (errTemplate act t) act = true := by
  unfold errTemplate
  rw [strAppend_assoc ("Error occurred during \"" ++ act)]
  exact strIncludes_app_self ("Error occurred during \"") act _

theorem filter_template_noM :
    strIncludes (errTemplate ("filter") noImageMsg) longSentinel = false := by decide

theorem style_template_noM :
    strIncludes (errTemplate ("apply style") noImageMsg) longSentinel = false := by decide

theorem adjust_template_noM :
    strIncludes (errTemplate ("adjustment") noImageMsg) longSentinel = false := by decide

theorem texture_template_noM :
    strIncludes (errTemplate ("texture") noImageMsg) longSentinel = false := by decide

/-- Request count of the decade operation: at most two, and exactly two
iff the data URL parses, the first response is a refusal, and a decade
token is extractable. -/
theorem decade_len (svc : Nat → RawResponse) (u p : String) :
    (generateDecadeImage svc u p).requests.length ≤ 2 ∧
    ((generateDecadeImage svc u p).requests.length = 2 ↔
      ((parseDataUrl u).isSome = true ∧ refusedResp (svc 0) ∧
        (extractDecade p).isSome = true)) := by
  unfold generateDecadeImage
  cases hp : parseDataUrl u with
  | none =>
    refine ⟨by simp, ?_, ?_⟩
    · intro h; simp at h
    · rintro ⟨hs, _, _⟩
      simp at hs
  | some md =>
    dsimp only
    cases hc : callImageEditingModel (svc 0) (decadeAct p) with
    | ok v =>
      refine ⟨by simp, ?_, ?_⟩
      · intro h; simp at h
      · rintro ⟨_, hr, _⟩
        rw [callModel_of_refusal (svc 0) (decadeAct p) hr] at hc
        cases hc
    | error m =>
      dsimp only
      by_cases hl : strIncludes m longSentinel = true
      · rw [if_pos hl]
        have hr : refusedResp (svc 0) :=
          (callModel_retry_iff (svc 0) (decadeAct p) (decadeAct_template_noM p)).mp ⟨m, hc, hl⟩
        cases hd : extractDecade p with
        | none =>
          refine ⟨by simp, ?_, ?_⟩
          · intro h; simp at h
          · rintro ⟨_, _, hsome⟩
            simp at hsome
        | some dec =>
          exact ⟨by simp, fun _ => ⟨rfl, hr, rfl⟩, fun _ => by simp⟩
      · rw [if_neg hl]
        refine ⟨by simp, ?_, ?_⟩
        · intro h; simp at h
        · rintro ⟨_, hr, _⟩
          rw [callModel_of_refusal (svc 0) (decadeAct p) hr] at hc
          cases hc
          exact absurd refusal_has_long hl

theorem supportedMime_eq (t : String) :
    supportedMime t = true ↔ (t = "image/jpeg" ∨ t = "image/png") := by
  simp [supportedMime, SUPPORTED_MIME_TYPES]

theorem jsRound_self (w : Nat) (hw : 0 < w) : jsRound (w * 2048) w = 2048 := by
  unfold jsRound
  rw [show 2 * (w * 2048) + w = 2 * w * 2048 + w by ring]
  rw [Nat.mul_add_div (by omega)]
  rw [Nat.div_eq_of_lt (by omega)]

theorem indexedParts_map_fst (i : Nat) (l : List ImgFile) :
    (indexedParts i l).map (fun pr => pr.1) = l.map fileToGenerativePart := by
  induction l generalizing i with
  | nil => rfl
  | cons f rest ih => simp [indexedParts, ih]

theorem indexedParts_map_snd (i : Nat) (l : List ImgFile) :
    (indexedParts i l).map (fun pr => pr.2) = List.range' (i + 1) l.length := by
  induction l generalizing i with
  | nil => rfl
  | cons f rest ih => simp [indexedParts, List.range', ih]

theorem foldl_strConcat (S : Nat → String) (l : List Nat) :
    ∀ base : String, l.foldl (fun acc i => acc ++ S i) base = base ++ strConcat (l.map S) := by
  induction l with
  | nil => intro base; simp [strConcat, strAppend_empty]
  | cons i tl ih =>
    intro base
    simp only [List.foldl_cons, List.map_cons, strConcat]
    rw [ih (base ++ S i), strAppend_assoc]

theorem indexedParts_fold (l : List ImgFile) (base : String) :
    (indexedParts 0 l).foldl (fun acc pr => acc ++ srcLine pr.2) base =
      base ++ strConcat ((List.range' 1 l.length).map srcLine) := by
  have h1 : (indexedParts 0 l).foldl (fun acc pr => acc ++ srcLine pr.2) base
      = ((indexedParts 0 l).map (fun pr => pr.2)).foldl (fun acc i => acc ++ srcLine i) base := by
    rw [List.foldl_map]
  rw [h1, indexedParts_map_snd, foldl_strConcat]

/-- C1: every operation (point edit, filter, adjustment, texture,
style, background removal, fusion, decade transform) invokes the
generation service at most twice; a second invocation happens exactly
when the first response is a refusal and the operation has a fallback
(for the decade transform, only when a decade token is also
extractable); background removal and fusion always invoke exactly
once. -/
theorem c1_retry_budget (svc : Nat → RawResponse) (f : ImgFile) (srcs : List ImgFile)
    (p u : String) (hx hy : Int) :
    (generateEditedImage svc f p hx hy).requests.length = 1 ∧
    ((generateFilteredImage svc f p).requests.length ≤ 2 ∧
      ((generateFilteredImage svc f p).requests.length = 2 ↔ refusedResp (svc 0))) ∧
    ((generateStyledImage svc f p).requests.length ≤ 2 ∧
      ((generateStyledImage svc f p).requests.length = 2 ↔ refusedResp (svc 0))) ∧
    ((generateAdjustedImage svc f p).requests.length ≤ 2 ∧
      ((generateAdjustedImage svc f p).requests.length = 2 ↔ refusedResp (svc 0))) ∧
    ((generateTexturedImage svc f p).requests.length ≤ 2 ∧
      ((generateTexturedImage svc f p).requests.length = 2 ↔ refusedResp (svc 0))) ∧
    (removeBackgroundImage svc f).requests.length = 1 ∧
    (generateFusedImage svc f srcs p).requests.length = 1 ∧
    ((generateDecadeImage svc u p).requests.length ≤ 2 ∧
      ((generateDecadeImage svc u p).requests.length = 2 ↔
        ((parseDataUrl u).isSome = true ∧ refusedResp (svc 0) ∧
          (extractDecade p).isSome = true))) :=
  ⟨rfl,
   runWithFallback_spec svc _ _ ("filter") ("filter (fallback)") filter_template_noM,
   runWithFallback_spec svc _ _ ("apply style") ("apply style (fallback)") style_template_noM,
   runWithFallback_spec svc _ _ ("adjustment") ("adjustment (fallback)") adjust_template_noM,
   runWithFallback_spec svc _ _ ("texture") ("texture (fallback)") texture_template_noM,
   rfl, rfl,
   decade_len svc u p⟩

/-- C1 witness: a refused-then-successful oracle makes the filter
operation send exactly two requests, and an always-successful oracle
keeps the decade operation within the two-request budget. -/
theorem c1_retry_budget_witness :
    (generateFilteredImage svcW fileW promptW).requests.length = 2 ∧
    (generateDecadeImage svcOkW urlW decadePromptW).requests.length ≤ 2 :=
  ⟨((c1_retry_budget svcW fileW [srcFileW] promptW urlW 1 2).2.1.2).mpr rfl,
   (c1_retry_budget svcOkW fileW [srcFileW] decadePromptW urlW 1 2).2.2.2.2.2.2.2.1⟩

/-- C2 (amended): interpretation order of a raw response: with no
candidate or no content parts the outcome is the malformed error, whose
message carries the finish reason and the safety detail when present;
if any part carries inline data the outcome is the data-URL success
built from the first such part, later parts ignored; otherwise, if the
first part carries nonempty text, the outcome is the refusal error with
a fixed message (the text itself is discarded, not carried). -/
theorem c2_interpret_order (r : RawResponse) :
    ((partsOf r = none ∨ partsOf r = some []) →
      interpretRaw r = Except.error (malformedMsg r) ∧
      (∀ fr, (candidateOf r).bind (fun c => c.finishReason) = some fr →
        strIncludes (malformedMsg r) (frToString fr) = true) ∧
      (safetyFlag (candidateOf r) = true →
        strIncludes (malformedMsg r) safetyDetailMsg = true)) ∧
    (∀ pre pb b suf, partsOf r = some (pre ++ pb :: suf) →
      (∀ q ∈ pre, q.inlineData = none) → pb.inlineData = some b →
      interpretRaw r = Except.ok ("data:" ++ b.mimeType ++ ";base64," ++ b.data)) ∧
    (∀ p0 ps t, partsOf r = some (p0 :: ps) →
      (∀ q ∈ p0 :: ps, q.inlineData = none) → p0.text = some t → t ≠ "" →
      interpretRaw r = Except.error refusalMsg) := by
  refine ⟨?_, ?_, ?_⟩
  · intro h
    refine ⟨interpretRaw_of_parts_bad r h, ?_, ?_⟩
    · intro fr hfr
      unfold malformedMsg
      rw [hfr]
      exact malformedMsgCore_mentions_reason fr _
    · intro hb
      unfold malformedMsg
      rw [hb]
      exact malformedMsgCore_mentions_safety _
  · intro pre pb b suf hp hpre hb
    exact interpretRaw_of_parts_inline r _ b hp (by simp)
      (firstInlinePart_app pre pb b suf hpre hb)
  · intro p0 ps t hp hnone ht hne
    exact interpretRaw_of_parts_text r p0 ps t hp (firstInlinePart_none _ hnone) ht hne

/-- C2 counterexample: a response whose first (and only) part carries
the text `hello` is interpreted as the fixed refusal message, which
does not contain that text - the refusal does not carry the model
text; and a response whose first part carries the empty text is not
interpreted as a refusal at all but as the fallthrough error. -/
theorem c2_counterexample :
    interpretRaw refuseRespW = Except.error refusalMsg ∧
    strIncludes refusalMsg helloW = false ∧
    interpretRaw respTextEmptyW = Except.error noImageMsg ∧
    noImageMsg ≠ refusalMsg :=
  ⟨rfl, by decide, rfl, by decide⟩

/-- C2 witness: the three interpretation branches evaluated at concrete
responses through the order theorem. -/
theorem c2_interpret_order_witness :
    interpretRaw respMalW = Except.error (malformedMsg respMalW) ∧
    interpretRaw respImgW = Except.ok ("data:" ++ pngMimeW ++ ";base64," ++ b64W) ∧
    interpretRaw refuseRespW = Except.error refusalMsg := by
  refine ⟨((c2_interpret_order respMalW).1 (Or.inl rfl)).1, ?_, ?_⟩
  · exact (c2_interpret_order respImgW).2.1 [⟨none, some helloW⟩]
      ⟨some ⟨pngMimeW, b64W⟩, none⟩ ⟨pngMimeW, b64W⟩ [] rfl (by decide) rfl
  · exact (c2_interpret_order refuseRespW).2.2 ⟨none, some helloW⟩ [] helloW rfl
      (by decide) rfl (by decide)

/-- C3: an input whose declared mime type is `image/jpeg` or
`image/png` and whose dimensions are both at most 2048 is returned
unchanged by the normalizer - the identical file value and its
original mime type, no re-encode. -/
theorem c3_normalize_identity (f : ImgFile)
    (htype : f.type = "image/jpeg" ∨ f.type = "image/png")
    (hw : f.width ≤ 2048) (hh : f.height ≤ 2048) :
    resizeImageForApi f = ⟨f, f.type⟩ := by
  have h1 : needsResizeB f = false := by
    simp only [needsResizeB, MAX_DIMENSION, Bool.or_eq_false_iff, decide_eq_false_iff_not]
    omega
  have h2 : supportedMime f.type = true := (supportedMime_eq f.type).mpr htype
  unfold resizeImageForApi
  rw [if_pos (by simp [h1, h2])]

/-- C3 witness: a 640x480 JPEG passes through untouched. -/
theorem c3_normalize_identity_witness : resizeImageForApi fileW = ⟨fileW, fileW.type⟩ :=
  c3_normalize_identity fileW (Or.inl rfl) (by decide) (by decide)

/-- C4: when a dimension exceeds 2048, the normalized longer dimension
is exactly 2048 and the shorter dimension is the original shorter
dimension scaled by 2048 over the original longer dimension, rounded
to the nearest integer (`jsRound`, the exact-rational model of
`Math.round`). -/
theorem c4_resize_dims (f : ImgFile) (h : 2048 < f.width ∨ 2048 < f.height) :
    (f.height ≤ f.width →
      (resizeImageForApi f).file.width = 2048 ∧
      (resizeImageForApi f).file.height = jsRound (f.height * 2048) f.width) ∧
    (f.width ≤ f.height →
      (resizeImageForApi f).file.height = 2048 ∧
      (resizeImageForApi f).file.width = jsRound (f.width * 2048) f.height) := by
  have hr : needsResizeB f = true := by
    simp only [needsResizeB, MAX_DIMENSION, Bool.or_eq_true, decide_eq_true_eq]
    omega
  unfold resizeImageForApi
  rw [if_neg (by simp [hr])]
  unfold resizeDims
  rw [if_pos hr]
  dsimp only
  constructor
  · intro hle
    by_cases hlt : f.height < f.width
    · rw [if_pos hlt]
      exact ⟨rfl, rfl⟩
    · have heq : f.height = f.width := by omega
      have hwpos : 0 < f.width := by omega
      rw [if_neg hlt]
      constructor
      · show jsRound (f.width * MAX_DIMENSION) f.height = 2048
        rw [heq]
        exact jsRound_self f.width hwpos
      · show MAX_DIMENSION = jsRound (f.height * 2048) f.width
        rw [heq]
        exact (jsRound_self f.width hwpos).symm
  · intro hle
    have hnlt : ¬ f.height < f.width := by omega
    rw [if_neg hnlt]
    exact ⟨rfl, rfl⟩

/-- C4 witness: a 4096x1000 image comes out 2048x500. -/
theorem c4_resize_dims_witness :
    (resizeImageForApi bigFileW).file.width = 2048 ∧
    (resizeImageForApi bigFileW).file.height = jsRound (1000 * 2048) 4096 :=
  (c4_resize_dims bigFileW (Or.inl (by decide))).1 (by decide)

/-- C5: whenever re-rendering is needed (unsupported declared mime
type, or a dimension over 2048, or both), the normalized output mime
type is `image/png`, both as reported and on the produced file. -/
theorem c5_convert_to_png (f : ImgFile)
    (h : ¬ (f.type = "image/jpeg" ∨ f.type = "image/png") ∨
      2048 < f.width ∨ 2048 < f.height) :
    (resizeImageForApi f).mimeType = "image/png" ∧
    (resizeImageForApi f).file.type = "image/png" := by
  have hcond : (!needsResizeB f && supportedMime f.type) = false := by
    rcases h with h | h
    · have hs : supportedMime f.type = false := by
        cases hs2 : supportedMime f.type
        · rfl
        · exact absurd ((supportedMime_eq f.type).mp hs2) h
      simp [hs]
    · have hr : needsResizeB f = true := by
        simp only [needsResizeB, MAX_DIMENSION, Bool.or_eq_true, decide_eq_true_eq]
        omega
      simp [hr]
  unfold resizeImageForApi
  rw [if_neg (by simp [hcond])]
  exact ⟨rfl, rfl⟩

/-- C5 witness: an in-bound WebP is re-encoded and reported as PNG. -/
theorem c5_convert_to_png_witness :
    (resizeImageForApi webpFileW).mimeType = "image/png" ∧
    (resizeImageForApi webpFileW).file.type = "image/png" :=
  c5_convert_to_png webpFileW (Or.inl (by decide))

/-- C6: when the primary decade attempt is refused, a decade token
extracted by the `\d{4}s` scan triggers exactly one retry whose text
part is the fixed fallback template containing that token; when no
token is extractable, no fallback request is made and the original
refusal error propagates to the caller. -/
theorem c6_decade_fallback (svc : Nat → RawResponse) (u p m64 d64 : String)
    (hparse : parseDataUrl u = some (m64, d64))
    (href : refusedResp (svc 0)) :
    (∀ dec, extractDecade p = some dec →
      (generateDecadeImage svc u p).requests =
        [[RequestPart.inlineData ⟨m64, d64⟩, RequestPart.text p],
         [RequestPart.inlineData ⟨m64, d64⟩, RequestPart.text (getFallbackPrompt dec)]] ∧
      strIncludes (getFallbackPrompt dec) dec = true ∧
      (generateDecadeImage svc u p).outcome =
        callImageEditingModel (svc 1) ("generate " ++ dec ++ " image (fallback)")) ∧
    (extractDecade p = none →
      (generateDecadeImage svc u p).requests =
        [[RequestPart.inlineData ⟨m64, d64⟩, RequestPart.text p]] ∧
      (generateDecadeImage svc u p).outcome = Except.error refusalMsg) := by
  have hcall := callModel_of_refusal (svc 0) (decadeAct p) href
  unfold generateDecadeImage
  rw [hparse]
  dsimp only
  rw [hcall]
  dsimp only
  rw [if_pos refusal_has_long]
  constructor
  · intro dec hdec
    rw [hdec]
    exact ⟨rfl, strIncludes_app_self _ dec _, rfl⟩
  · intro hdec
    rw [hdec]
    exact ⟨rfl, rfl⟩

/-- C6 witness: with a refusing oracle, a prompt containing `1970s`
produces the two-request transcript, and a prompt with no decade token
surfaces the original refusal error. -/
theorem c6_decade_fallback_witness :
    (generateDecadeImage svcW urlW decadePromptW).requests.length = 2 ∧
    (generateDecadeImage svcW urlW noDecadePromptW).outcome = Except.error refusalMsg := by
  have h1 := c6_decade_fallback svcW urlW decadePromptW pngMimeW b64W rfl rfl
  have h2 := c6_decade_fallback svcW urlW noDecadePromptW pngMimeW b64W rfl rfl
  constructor
  · rw [(h1.1 ("1970s") rfl).1]
    rfl
  · exact (h2.2 rfl).2

theorem jsToString_str (s : String) : jsToString (JsVal.jstr s) = s := by
  unfold jsToString
  rfl

/-- Shared evaluation of the classifier on the literal JSON message of
the invalid-credential scenario. -/
theorem handleApiError_keyJson (act : String) :
    handleApiError keyJsonMsgW act = errTemplate act apiKeyNeedle := by
  have hp : jsonParse keyJsonMsgW =
      some (JsVal.jobj [(errorKey, JsVal.jobj [(messageKey, JsVal.jstr apiKeyNeedle)])]) := rfl
  unfold handleApiError
  rw [hp]
  dsimp only
  have h1 : jsField
      (JsVal.jobj [(errorKey, JsVal.jobj [(messageKey, JsVal.jstr apiKeyNeedle)])]) errorKey
      = some (JsVal.jobj [(messageKey, JsVal.jstr apiKeyNeedle)]) := rfl
  rw [h1]
  dsimp only
  have h2 : jsField (JsVal.jobj [(messageKey, JsVal.jstr apiKeyNeedle)]) messageKey
      = some (JsVal.jstr apiKeyNeedle) := rfl
  rw [h2]
  dsimp only
  rw [if_pos (by decide : jsTruthy (JsVal.jstr apiKeyNeedle) = true)]
  rw [jsToString_str]

/-- C7 counterexample: on the literal JSON message the classifier does
not return the fixed settings message - the successful JSON parse
routes through the nested-message branch instead, templating the
nested text under the action label. -/
theorem c7_counterexample :
    handleApiError keyJsonMsgW retouchActW = errTemplate retouchActW apiKeyNeedle ∧
    handleApiError keyJsonMsgW retouchActW ≠ invalidKeyMsg := by
  constructor
  · exact handleApiError_keyJson retouchActW
  · rw [handleApiError_keyJson retouchActW]
    decide

/-- C7 (amended): for the raw error message
`{"error":{"message":"API key not valid"}}` the classifier uses the
nested service-reported message (which takes precedence over the
transport wrapper text) and returns
`Error occurred during "<action>": API key not valid`; the fixed
invalid-credential message is only produced when the raw message is
not valid JSON. -/
theorem c7_nested_precedence (act : String) :
    handleApiError keyJsonMsgW act = errTemplate act apiKeyNeedle :=
  handleApiError_keyJson act

/-- C8 counterexample: the invalid-credential and network-failure
branches return fixed messages that do not embed the action label. -/
theorem c8_counterexample :
    handleApiError apiKeyNeedle retouchActW = invalidKeyMsg ∧
    strIncludes invalidKeyMsg retouchActW = false ∧
    handleApiError xhrNeedle retouchActW = xhrFailMsg ∧
    strIncludes xhrFailMsg retouchActW = false := by
  refine ⟨rfl, by decide, rfl, by decide⟩

/-- C8 (amended): for every raw error and action label, the classified
message either is the template `Error occurred during "<action>":
<message>` - which always embeds the action label - or is one of the
two fixed messages (invalid credential, network failure), which omit
it. -/
theorem c8_action_label (msg act : String) :
    (∃ t, handleApiError msg act = errTemplate act t ∧
      strIncludes (errTemplate act t) act = true) ∨
    handleApiError msg act = invalidKeyMsg ∨
    handleApiError msg act = xhrFailMsg := by
  unfold handleApiError
  cases hp : jsonParse msg with
  | some obj =>
    dsimp only
    cases h1 : jsField obj errorKey with
    | some ev =>
      dsimp only
      cases h2 : jsField ev messageKey with
      | some mv =>
        dsimp only
        by_cases ht : jsTruthy mv = true
        · rw [if_pos ht]
          exact Or.inl ⟨jsToString mv, rfl, errTemplate_mentions_action act _⟩
        · rw [if_neg ht]
          exact Or.inl ⟨_, rfl, errTemplate_mentions_action act _⟩
      | none => exact Or.inl ⟨_, rfl, errTemplate_mentions_action act _⟩
    | none => exact Or.inl ⟨_, rfl, errTemplate_mentions_action act _⟩
  | none =>
    dsimp only
    by_cases hk : strIncludes msg apiKeyNeedle = true
    · rw [if_pos hk]
      exact Or.inr (Or.inl rfl)
    · rw [if_neg hk]
      by_cases hx : strIncludes msg xhrNeedle = true
      · rw [if_pos hx]
        exact Or.inr (Or.inr rfl)
      · rw [if_neg hx]
        exact Or.inl ⟨_, rfl, errTemplate_mentions_action act _⟩

/-- C9: a fusion request is a single invocation whose body is the main
image part first, then the source image parts in their given order
(all inline-image parts, N+1 of them), followed by exactly one
composite text part enumerating source indices 1 through N in
generation order; `Promise.all` preserves that order independently of
completion order, modelled by the order-preserving `indexedParts`. -/
theorem c9_fusion_parts (svc : Nat → RawResponse) (main : ImgFile) (srcs : List ImgFile)
    (prompt : String) (hn : srcs ≠ []) :
    (generateFusedImage svc main srcs prompt).requests =
      [fileToGenerativePart main ::
        (srcs.map fileToGenerativePart ++
          [RequestPart.text (fusionText srcs.length prompt)])] ∧
    (∀ q ∈ fileToGenerativePart main :: srcs.map fileToGenerativePart,
      ∃ b, q = RequestPart.inlineData b) ∧
    (fileToGenerativePart main ::
      (srcs.map fileToGenerativePart ++
        [RequestPart.text (fusionText srcs.length prompt)])).length = srcs.length + 2 := by
  refine ⟨?_, ?_, by simp⟩
  · unfold generateFusedImage fusionText
    dsimp only
    rw [indexedParts_fold, indexedParts_map_fst]
  · intro q hq
    rcases List.mem_cons.mp hq with h | h
    · exact ⟨_, h⟩
    · obtain ⟨g, _, hg⟩ := List.mem_map.mp h
      exact ⟨_, hg.symm⟩

/-- C9 witness: fusion of a main image with two sources sends one
request of exactly three inline parts plus the enumerating text. -/
theorem c9_fusion_parts_witness :
    (generateFusedImage svcOkW fileW [srcFileW, srcFile2W] fusePromptW).requests =
      [fileToGenerativePart fileW ::
        ([srcFileW, srcFile2W].map fileToGenerativePart ++
          [RequestPart.text (fusionText 2 fusePromptW)])] :=
  (c9_fusion_parts svcOkW fileW [srcFileW, srcFile2W] fusePromptW (by simp)).1

/-- C10: a decade-transform image argument not matching
`^data:(image\/\w+);base64,(.*)$` fails with the invalid-format error
before any service invocation (empty transcript); a matching argument
has its captured mime type and base64 payload used verbatim as the
inline image part of the first request. -/
theorem c10_data_url_guard (svc : Nat → RawResponse) (s p : String) :
    (parseDataUrl s = none →
      (generateDecadeImage svc s p).requests = [] ∧
      (generateDecadeImage svc s p).outcome = Except.error invalidUrlMsg) ∧
    (∀ m d, parseDataUrl s = some (m, d) →
      (generateDecadeImage svc s p).requests.head? =
        some [RequestPart.inlineData ⟨m, d⟩, RequestPart.text p]) := by
  constructor
  · intro h
    unfold generateDecadeImage
    rw [h]
    exact ⟨rfl, rfl⟩
  · intro m d h
    unfold generateDecadeImage
    rw [h]
    dsimp only
    cases hc : callImageEditingModel (svc 0) (decadeAct p) with
    | ok v => rfl
    | error msg =>
      dsimp only
      by_cases hl : strIncludes msg longSentinel = true
      · rw [if_pos hl]
        cases hd : extractDecade p with
        | none => rfl
        | some dec => rfl
      · rw [if_neg hl]
        rfl

/-- C10 witness: a non-matching string yields the empty transcript with
the invalid-format error; a matching data URL forwards its mime type
and payload verbatim. -/
theorem c10_data_url_guard_witness :
    (generateDecadeImage svcW badUrlW decadePromptW).requests = [] ∧
    (generateDecadeImage svcW badUrlW decadePromptW).outcome = Except.error invalidUrlMsg ∧
    (generateDecadeImage svcW urlW decadePromptW).requests.head? =
      some [RequestPart.inlineData ⟨pngMimeW, b64W⟩, RequestPart.text decadePromptW] := by
  have h1 := (c10_data_url_guard svcW badUrlW decadePromptW).1 rfl
  have h2 := (c10_data_url_guard svcW urlW decadePromptW).2 pngMimeW b64W rfl
  exact ⟨h1.1, h1.2, h2⟩
